import Mathlib

/-!
Verification model of the Chatbot repository: the request-mode dispatch and
conversation-state logic of the chat client.

The TypeScript sources are shallowly embedded as pure Lean functions:

* `handleSendMessage` (App component, `src/unnamed/part_002`) becomes a pure
  function from the turn inputs and the environment collaborators (file
  decoder, object-URL factory, gateway) to a `TurnOutcome` record collecting
  every observable effect of the turn: the messages appended (in order), the
  gateway calls issued, the number of `URL.revokeObjectURL` releases, the
  number of credential-reselection (`window.aistudio.openSelectKey`) calls,
  and the final value of the `isLoading` flight flag.
* The gateway adapter (`src/services/geminiService.ts`) is embedded over an
  oracle for the vendor SDK `generateContent` endpoint; each service function
  also reports the exact `SdkCall` it constructs.
* `MessageInput.tsx` becomes a state-transition system over `InputState`.
* The citation display expression of `ChatWindow.tsx` becomes
  `sourceDisplayText`.

Environment-supplied values that are irrelevant to message content and
ordering (`crypto.randomUUID`, `new Date()` timestamps) are omitted from the
`Message` record.  Asynchronous turns are collapsed to atomic steps, matching
the single-threaded event-loop model of the browser; the flight flag's
concurrent aspect is treated by the two-phase `FlightState` trace model.
-/

namespace Chatbot

/-- Prefix test on character lists; building block for the JS string
operations used by the sources. -/
def hasPrefixL : List Char → List Char → Bool
  | _, [] => true
  | [], _ :: _ => false
  | c :: cs, p :: ps => c == p && hasPrefixL cs ps

/-- Does `pat` occur as a contiguous run inside the list? -/
def containsSub (pat : List Char) : List Char → Bool
  | [] => hasPrefixL [] pat
  | c :: cs => hasPrefixL (c :: cs) pat || containsSub pat cs

/-- Models JS `String.prototype.includes`: substring occurrence test. -/
def strIncludes (s pat : String) : Bool :=
  containsSub pat.toList s.toList

/-- ASCII whitespace, for the JS `trim` model (space, tab, LF, VT, FF, CR). -/
def isJsWhitespace (c : Char) : Bool :=
  c == Char.ofNat 32 || c == Char.ofNat 9 || c == Char.ofNat 10 ||
  c == Char.ofNat 11 || c == Char.ofNat 12 || c == Char.ofNat 13

/-- Models JS `String.prototype.trim` (restricted to ASCII whitespace, which
covers the inputs of interest). -/
def jsTrim (s : String) : String :=
  String.mk (((s.toList.dropWhile isJsWhitespace).reverse.dropWhile
    isJsWhitespace).reverse)

/-- Models JS `String.prototype.startsWith`. -/
def jsStartsWith (s p : String) : Bool :=
  hasPrefixL s.toList p.toList

/-- Sender role of a conversation turn (`Message.sender` in `types.ts`). -/
inductive Sender where
  | user
  | ai
deriving DecidableEq, Repr

/-- Citation source (`ToolSource` in `types.ts`): a URI plus optional title. -/
structure ToolSource where
  uri : String
  title : Option String := none
deriving DecidableEq, Repr

/-- Conversation turn (`Message` in `types.ts`).  The environment-generated
`id` (`crypto.randomUUID()`) and `timestamp` (`new Date()`) are omitted: they
carry no information about ordering or content of the log. -/
structure Message where
  sender : Sender
  text : String
  imageUrl : Option String := none
  sources : Option (List ToolSource) := none
deriving DecidableEq, Repr

/-- Conversation mode (`ChatMode` enum in `types.ts`). -/
inductive ChatMode where
  | Standard
  | SearchGrounded
  | FastResponse
deriving DecidableEq, Repr

/-- The display string of each `ChatMode` enum member in `types.ts`. -/
def modeLabel : ChatMode → String
  | .Standard => "Standard Chat (Gemini 3 Pro)"
  | .SearchGrounded => "Search Grounded (Gemini 3 Flash)"
  | .FastResponse => "Fast Response (Gemini Flash Lite)"

/-- A browser `File` object, reduced to the only field the sources consult:
its MIME type (`file.type`). -/
structure JsFile where
  type : String
deriving DecidableEq, Repr

/-- The encoded attachment handed to the gateway: base64 payload plus declared
media type (the `fileData` record built in `handleSendMessage`). -/
structure FileData where
  data : String
  mimeType : String
deriving DecidableEq, Repr

/-- One part of a multimodal SDK request (`Part` of `@google/genai`):
either prompt text or inline base64 data. -/
inductive Part where
  | text (s : String)
  | inlineData (mimeType : String) (data : String)
deriving DecidableEq, Repr

/-- The parts the inline attachment contributes to a Standard request. -/
def attachmentParts : Option FileData → List Part
  | some fd => [Part.inlineData fd.mimeType fd.data]
  | none => []

/-- The `contents` argument of `ai.models.generateContent`: either a parts
record (Standard capability) or a bare prompt string (the other two). -/
inductive SdkContents where
  | parts (ps : List Part)
  | prompt (s : String)
deriving DecidableEq, Repr

/-- The request configuration flags the service functions set. -/
structure SdkConfig where
  googleSearch : Bool := false
  thinkingBudgetZero : Bool := false
deriving DecidableEq, Repr

/-- A call to the vendor SDK `generateContent` endpoint as constructed by
`geminiService.ts`: model name, contents, and configuration. -/
structure SdkCall where
  model : String
  contents : SdkContents
  config : SdkConfig := {}
deriving DecidableEq, Repr

/-- A web grounding chunk (`chunk.web`). -/
structure WebChunk where
  uri : String
  title : Option String := none
deriving DecidableEq, Repr

/-- A review snippet inside a maps place-answer source. -/
structure ReviewSnippet where
  uri : String
  text : Option String := none
deriving DecidableEq, Repr

/-- A place-answer source inside a maps grounding chunk. -/
structure PlaceAnswerSource where
  reviewSnippets : Option (List ReviewSnippet) := none
deriving DecidableEq, Repr

/-- A maps grounding chunk (`chunk.maps`). -/
structure MapsChunk where
  uri : String
  title : Option String := none
  placeAnswerSources : Option (List PlaceAnswerSource) := none
deriving DecidableEq, Repr

/-- One grounding chunk of a `GenerateContentResponse`. -/
structure GroundingChunk where
  web : Option WebChunk := none
  maps : Option MapsChunk := none
deriving DecidableEq, Repr

/-- The fields of a `GenerateContentResponse` the service functions read. -/
structure SdkResponse where
  text : Option String := none
  groundingChunks : Option (List GroundingChunk) := none
deriving DecidableEq, Repr

/-- Models `getResponseText` of `geminiService.ts`:
`response.text ?? 'No text response received.'`. -/
def getResponseText (response : SdkResponse) : String :=
  match response.text with
  | some t => t
  | none => "No text response received."

/-- Sources contributed by the review snippets of one place-answer source. -/
def snippetSources (ps : PlaceAnswerSource) : List ToolSource :=
  match ps.reviewSnippets with
  | some snips => snips.map (fun sn => { uri := sn.uri, title := sn.text })
  | none => []

/-- Sources contributed by one grounding chunk, mirroring the
`if (chunk.web) ... else if (chunk.maps) ...` cascade of
`extractGroundingSources`. -/
def chunkSources (chunk : GroundingChunk) : List ToolSource :=
  match chunk.web with
  | some w => [{ uri := w.uri, title := w.title }]
  | none =>
    match chunk.maps with
    | some m =>
      { uri := m.uri, title := m.title } ::
        (match m.placeAnswerSources with
         | some pas => pas.foldr (fun ps acc => snippetSources ps ++ acc) []
         | none => [])
    | none => []

/-- Models `extractGroundingSources` of `geminiService.ts`. -/
def extractGroundingSources (response : SdkResponse) : List ToolSource :=
  match response.groundingChunks with
  | some chunks => chunks.foldr (fun chunk acc => chunkSources chunk ++ acc) []
  | none => []

/-- The adapter's result type: generated text plus citation sources (the
`{ text, sources }` records returned by the three service functions). -/
structure GatewayResult where
  text : String
  sources : List ToolSource := []
deriving DecidableEq, Repr

/-- The SDK endpoint as an oracle: a call either yields a response or fails
with an opaque error message. -/
def SdkOracle : Type := SdkCall → Except String SdkResponse

/-- Models `geminiService.generateContentStandard`: builds the parts list
(prompt text plus, when file data is present, the inline attachment), issues
one SDK call against `gemini-3-pro-preview`, and on failure replaces the
error with the fixed wrapped message.  The constructed `SdkCall` is returned
alongside the result. -/
def generateContentStandard (sdk : SdkOracle) (prompt : String)
    (fileData : Option FileData) : Except String GatewayResult × SdkCall :=
  let parts : List Part :=
    [Part.text prompt] ++
      (match fileData with
       | some fd => [Part.inlineData fd.mimeType fd.data]
       | none => [])
  let call : SdkCall := { model := "gemini-3-pro-preview", contents := .parts parts }
  (match sdk call with
   | .ok response =>
     .ok { text := getResponseText response,
           sources := extractGroundingSources response }
   | .error _ =>
     .error "Failed to get response from gemini-3-pro-preview. Check console for details.",
   call)

/-- Models `geminiService.generateContentSearchGrounded`: one text-only SDK
call against `gemini-3-flash-preview` with the google-search tool enabled. -/
def generateContentSearchGrounded (sdk : SdkOracle) (prompt : String) :
    Except String GatewayResult × SdkCall :=
  let call : SdkCall :=
    { model := "gemini-3-flash-preview", contents := .prompt prompt,
      config := { googleSearch := true } }
  (match sdk call with
   | .ok response =>
     .ok { text := getResponseText response,
           sources := extractGroundingSources response }
   | .error _ =>
     .error "Failed to get search-grounded response from gemini-3-flash-preview. Check console for details.",
   call)

/-- Models `geminiService.generateContentFast`: one text-only SDK call against
`gemini-flash-lite-latest` with a zero thinking budget. -/
def generateContentFast (sdk : SdkOracle) (prompt : String) :
    Except String GatewayResult × SdkCall :=
  let call : SdkCall :=
    { model := "gemini-flash-lite-latest", contents := .prompt prompt,
      config := { thinkingBudgetZero := true } }
  (match sdk call with
   | .ok response =>
     .ok { text := getResponseText response,
           sources := extractGroundingSources response }
   | .error _ =>
     .error "Failed to get fast response from gemini-flash-lite-latest. Check console for details.",
   call)

/-- A call issued by the orchestrator at the gateway-adapter boundary: which
capability entry point is invoked and with which arguments.  Only the
Standard entry point accepts file data, exactly as in `geminiService.ts`. -/
inductive GatewayCall where
  | standard (prompt : String) (fileData : Option FileData)
  | searchGrounded (prompt : String)
  | fast (prompt : String)
deriving DecidableEq, Repr

/-- The gateway adapter as the orchestrator sees it. -/
def Gateway : Type := GatewayCall → Except String GatewayResult

/-- The concrete gateway built from `geminiService.ts` over an SDK oracle. -/
def realGateway (sdk : SdkOracle) : Gateway
  | .standard prompt fd => (generateContentStandard sdk prompt fd).1
  | .searchGrounded prompt => (generateContentSearchGrounded sdk prompt).1
  | .fast prompt => (generateContentFast sdk prompt).1

/-- The three gateway capabilities. -/
inductive Capability where
  | standard
  | searchGrounded
  | fast
deriving DecidableEq, BEq, Repr

/-- Which capability a gateway call addresses. -/
def capabilityOf : GatewayCall → Capability
  | .standard _ _ => .standard
  | .searchGrounded _ => .searchGrounded
  | .fast _ => .fast

/-- The capability each conversation mode dispatches to (the `switch` of
`handleSendMessage`). -/
def modeCapability : ChatMode → Capability
  | .Standard => .standard
  | .SearchGrounded => .searchGrounded
  | .FastResponse => .fast

/-- Mode Policy attachment permission: `Standard` is the only mode whose
gateway call accepts an attachment; the other two short-circuit to an
advisory turn when file data is present (the `if (fileData)` guards in
`handleSendMessage`). -/
def allowsAttachment : ChatMode → Bool
  | .Standard => true
  | .SearchGrounded => false
  | .FastResponse => false

/-- The substring the orchestrator's catch block searches for to detect a
credential-shaped failure. -/
def credentialSignature : String := "Requested entity was not found."

/-- The credential-issue message the orchestrator appends when the failure
message carries `credentialSignature`. -/
def credentialMessage : String :=
  "API key issue: Requested entity was not found. Please ensure your API key is correct and associated with a paid GCP project. You can update it by clicking \x27Select API Key\x27 in the AI Studio menu."

/-- The default diagnostic for a failure with an empty message. -/
def defaultGatewayErrorMessage : String :=
  "An error occurred while communicating with the AI."

/-- The AI-authored error text appended when the attachment fails to decode. -/
def fileErrorMessage : String := "Error processing file. Please try again."

/-- Advisory text of the Search Grounded attachment-rejection branch. -/
def searchAdvisoryText : String :=
  "File uploads are not supported in Search Grounded mode. Please switch to Standard Chat for multimodal input."

/-- Advisory text of the Fast Response attachment-rejection branch. -/
def fastAdvisoryText : String :=
  "File uploads are not supported in Fast Response mode. Please switch to Standard Chat for multimodal input."

/-- The advisory text appended by the attachment-rejecting branch of each
mode; `Standard` has no such branch, so its value is never consulted. -/
def advisoryText : ChatMode → String
  | .SearchGrounded => searchAdvisoryText
  | .FastResponse => fastAdvisoryText
  | .Standard => ""

/-- The catch block of `handleSendMessage`: from the caught error's message,
the diagnostic text of the appended AI turn and the number of
`window.aistudio.openSelectKey()` (credential reselection) invocations.
Mirrors the `error.message.includes(...)` cascade; the collaborator is taken
to be available, as §6 of the specification treats it. -/
def deriveFailure (msg : String) : String × Nat :=
  if strIncludes msg credentialSignature then (credentialMessage, 1)
  else if msg != "" then ("AI Error: " ++ msg, 0)
  else (defaultGatewayErrorMessage, 0)

/-- Every observable effect of one `handleSendMessage` invocation:
the messages appended to the log (in append order), the gateway calls
issued, the number of `URL.revokeObjectURL` releases of the attachment
preview, the number of credential-reselection invocations, and the final
value of the `isLoading` flight flag. -/
structure TurnOutcome where
  messages : List Message
  gatewayCalls : List GatewayCall
  revokeCount : Nat
  openSelectKeyCount : Nat
  isLoadingFinal : Bool
deriving DecidableEq, Repr

/-- The shared tail of the three gateway-calling paths of
`handleSendMessage`: issue the capability call, then either append the AI
success turn (text plus sources) or run the catch block and append the
diagnostic turn; in both cases the finally block clears the flight flag and
releases the preview resource once if present. -/
def finishCall (gateway : Gateway) (call : GatewayCall)
    (userMessage : Message) (filePreviewUrl : Option String) : TurnOutcome :=
  match gateway call with
  | .ok result =>
    { messages := [userMessage,
        { sender := .ai, text := result.text, sources := some result.sources }],
      gatewayCalls := [call],
      revokeCount := if filePreviewUrl.isSome then 1 else 0,
      openSelectKeyCount := 0,
      isLoadingFinal := false }
  | .error e =>
    { messages := [userMessage, { sender := .ai, text := (deriveFailure e).1 }],
      gatewayCalls := [call],
      revokeCount := if filePreviewUrl.isSome then 1 else 0,
      openSelectKeyCount := (deriveFailure e).2,
      isLoadingFinal := false }

/-- The attachment-rejection advisory branch of `handleSendMessage`: appends
the advisory AI turn, skips the gateway, clears the flight flag, and revokes
the preview URL in the branch itself — after which the `finally` block of the
enclosing `try` runs on the `return` and revokes it a second time (hence the
two conditional releases). -/
def advisoryOutcome (userMessage : Message) (advisory : String)
    (filePreviewUrl : Option String) : TurnOutcome :=
  { messages := [userMessage, { sender := .ai, text := advisory }],
    gatewayCalls := [],
    revokeCount := (if filePreviewUrl.isSome then 1 else 0) +
      (if filePreviewUrl.isSome then 1 else 0),
    openSelectKeyCount := 0,
    isLoadingFinal := false }

/-- The body of `handleSendMessage` from the append of the user turn onward:
the `switch (currentMode)` dispatch between the advisory branches and the
three capability calls. -/
def mainFlow (gateway : Gateway) (currentMode : ChatMode) (text : String)
    (fileData : Option FileData) (filePreviewUrl : Option String) : TurnOutcome :=
  let userMessage : Message := { sender := .user, text := text, imageUrl := filePreviewUrl }
  match currentMode with
  | .SearchGrounded =>
    match fileData with
    | some _ => advisoryOutcome userMessage searchAdvisoryText filePreviewUrl
    | none => finishCall gateway (.searchGrounded text) userMessage filePreviewUrl
  | .FastResponse =>
    match fileData with
    | some _ => advisoryOutcome userMessage fastAdvisoryText filePreviewUrl
    | none => finishCall gateway (.fast text) userMessage filePreviewUrl
  | .Standard => finishCall gateway (.standard text fileData) userMessage filePreviewUrl

/-- Models `handleSendMessage` of the App component (`src/unnamed/part_002`).
`decode` stands for `fileToBase64` (which may reject), `createObjectURL` for
`URL.createObjectURL`, and `gateway` for the three `geminiService` entry
points.  When a file is present it is decoded first; on decode failure the
turn aborts with a single AI error turn before any user turn, gateway call or
preview-URL creation.  Otherwise the user turn is appended and the mode
dispatch runs. -/
def handleSendMessage (decode : JsFile → Except String String)
    (createObjectURL : JsFile → String) (gateway : Gateway)
    (currentMode : ChatMode) (text : String) (file : Option JsFile) : TurnOutcome :=
  match file with
  | some f =>
    match decode f with
    | .error _ =>
      { messages := [{ sender := .ai, text := fileErrorMessage }],
        gatewayCalls := [], revokeCount := 0, openSelectKeyCount := 0,
        isLoadingFinal := false }
    | .ok b64 =>
      mainFlow gateway currentMode text
        (some { data := b64, mimeType := f.type }) (some (createObjectURL f))
  | none => mainFlow gateway currentMode text none none

/-- The local state of the `MessageInput` component: the draft text, the
selected attachment, and its preview URL. -/
structure InputState where
  inputText : String := ""
  selectedFile : Option JsFile := none
  filePreviewUrl : Option String := none
deriving DecidableEq, Repr

/-- The initial `MessageInput` state. -/
def initInputState : InputState := {}

/-- Models `handleFileChange` of `MessageInput.tsx`.  Returns the new state
and whether the non-image `alert` fired: an image file is stored with a fresh
preview URL; any other choice clears the selection, alerting when a file was
actually chosen. -/
def handleFileChange (createObjectURL : JsFile → String) (st : InputState)
    (file : Option JsFile) : InputState × Bool :=
  match file with
  | some f =>
    if jsStartsWith f.type "image/" then
      ({ st with
          selectedFile := some f
          filePreviewUrl := some (createObjectURL f) }, false)
    else
      ({ st with selectedFile := none, filePreviewUrl := none }, true)
  | none => ({ st with selectedFile := none, filePreviewUrl := none }, false)

/-- Models `clearFile` of `MessageInput.tsx` (the revocation of the input's
own preview URL is not tracked here; it is distinct from the turn-scoped
preview resource of `handleSendMessage`). -/
def clearFile (st : InputState) : InputState :=
  { st with selectedFile := none, filePreviewUrl := none }

/-- Models `handleSubmit` of `MessageInput.tsx`: while a response is in
flight the attempt is dropped with no state change and no emission; otherwise
a submission `(trimmed text, selected file)` is emitted iff the trimmed text
is nonempty or a file is selected, and the draft and selection are cleared. -/
def handleSubmit (st : InputState) (isLoading : Bool) :
    InputState × Option (String × Option JsFile) :=
  if isLoading then (st, none)
  else if (jsTrim st.inputText != "") || st.selectedFile.isSome then
    (clearFile { st with inputText := "" }, some (jsTrim st.inputText, st.selectedFile))
  else (st, none)

/-- The events `MessageInput` reacts to. -/
inductive InputEvent where
  | textChange (t : String)
  | fileChange (f : Option JsFile)
  | clear
  | submit (isLoading : Bool)
deriving Repr

/-- One `MessageInput` state transition. -/
def stepInput (createObjectURL : JsFile → String) (st : InputState) :
    InputEvent → InputState
  | .textChange t => { st with inputText := t }
  | .fileChange f => (handleFileChange createObjectURL st f).1
  | .clear => clearFile st
  | .submit l => (handleSubmit st l).1

/-- Run a sequence of `MessageInput` events. -/
def runInput (createObjectURL : JsFile → String) (st : InputState) :
    List InputEvent → InputState
  | [] => st
  | e :: es => runInput createObjectURL (stepInput createObjectURL st e) es

/-- The selected-attachment invariant: empty, or an image MIME type. -/
def fileOk : Option JsFile → Bool
  | none => true
  | some f => jsStartsWith f.type "image/"

/-- The session state the App component owns: message log, flight flag, and
the input component's state. -/
structure AppState where
  messages : List Message
  isLoading : Bool
  input : InputState
deriving DecidableEq, Repr

/-- The side effects of one submission attempt, beyond the state change. -/
structure SubmitLog where
  gatewayCalls : List GatewayCall := []
  revokeCount : Nat := 0
  openSelectKeyCount : Nat := 0
deriving DecidableEq, Repr

/-- One submission attempt against the session: `handleSubmit` gates on the
flight flag and emptiness; when it emits, the turn runs through
`handleSendMessage` and its appended messages extend the log.  The
asynchronous turn is collapsed to one atomic step (single-threaded event
loop); `isLoading` ends at the flag value every exit path of
`handleSendMessage` leaves behind. -/
def submitEvent (decode : JsFile → Except String String)
    (createObjectURL : JsFile → String) (gateway : Gateway) (mode : ChatMode)
    (s : AppState) : AppState × SubmitLog :=
  match handleSubmit s.input s.isLoading with
  | (st, none) => ({ s with input := st }, {})
  | (st, some (text, file)) =>
    let o := handleSendMessage decode createObjectURL gateway mode text file
    ({ messages := s.messages ++ o.messages, isLoading := o.isLoadingFinal,
       input := st },
     { gatewayCalls := o.gatewayCalls, revokeCount := o.revokeCount,
       openSelectKeyCount := o.openSelectKeyCount })

/-- Abstract flight-flag trace state: the flag itself and the number of turns
dispatched but not yet resolved. -/
structure FlightState where
  loading : Bool
  pending : Nat
deriving DecidableEq, Repr

/-- Flight-trace events: a submission attempt (with or without content), and
the resolution of a dispatched turn. -/
inductive FlightEvent where
  | attempt (hasContent : Bool)
  | resolve
deriving Repr

/-- One flight-trace step.  An attempt while the flag is set is dropped
exactly as `handleSubmit` drops it (`if (isLoading) return`); an attempt with
content dispatches a turn and sets the flag (`setIsLoading(true)`); a
resolution clears the flag as every exit path of `handleSendMessage` does. -/
def flightStep (s : FlightState) : FlightEvent → FlightState
  | .attempt hasContent =>
    if s.loading then s
    else if hasContent then { loading := true, pending := s.pending + 1 }
    else s
  | .resolve => { loading := false, pending := s.pending - 1 }

/-- Run a flight-event trace. -/
def runFlight (s : FlightState) : List FlightEvent → FlightState
  | [] => s
  | e :: es => runFlight (flightStep s e) es

/-- The session starts idle. -/
def flightInit : FlightState := { loading := false, pending := 0 }

/-- The flight invariant: at most one turn is pending, and an idle flag means
no pending turn. -/
def flightInv (s : FlightState) : Prop :=
  s.pending ≤ 1 ∧ (s.loading = false → s.pending = 0)

/-- Models `new URL(uri).hostname` for URIs of the common shape
`scheme://host[:port][/path][?query][#fragment]` with a lowercase ASCII
host (the shape of the citation URIs this client renders). -/
def dropThroughSchemeSep : List Char → List Char
  | ':' :: '/' :: '/' :: rest => rest
  | _ :: rest => dropThroughSchemeSep rest
  | [] => []

/-- The host component of a URI; see `dropThroughSchemeSep`. -/
def urlHostname (uri : String) : String :=
  String.mk ((dropThroughSchemeSep uri.toList).takeWhile
    (fun c => c != '/' && c != ':' && c != '?' && c != '#'))

/-- Models the anchor-text expression of `renderSources` in
`ChatWindow.tsx`: `source.title || new URL(source.uri).hostname +
(source.uri.length > 50 ? '...' : '')`.  The JS `||` falls through on an
absent or empty title; the host function is a parameter so the selection
logic is stated independently of URL parsing. -/
def sourceDisplayText (hostname : String → String) (source : ToolSource) : String :=
  let fallback := hostname source.uri ++
    (if source.uri.length > 50 then "..." else "")
  match source.title with
  | some t => if t != "" then t else fallback
  | none => fallback

/-- C1 counterexample: in Search Grounded mode (whose policy disallows
attachments) a submission whose attachment is present but fails to decode
produces a single AI-authored decode-error turn — not one user turn followed
by one advisory turn — because `handleSendMessage` decodes the attachment
before the mode-policy check. -/
theorem c1_policy_advisory_counterexample :
    allowsAttachment ChatMode.SearchGrounded = false ∧
    (handleSendMessage (fun _ => Except.error "read error") (fun _ => "blob:1")
        (fun _ => Except.error "unreached") ChatMode.SearchGrounded "hi"
        (some { type := "image/png" })).messages.map Message.sender
      ≠ [Sender.user, Sender.ai] := by
  decide

/-- C1 (amended): for every mode whose policy disallows attachments and every
submission whose attachment decodes successfully, `handleSendMessage` appends
exactly one user turn followed by exactly one AI-authored advisory turn and
issues no gateway call. -/
theorem c1_policy_advisory (b64 : String) (createObjectURL : JsFile → String)
    (gateway : Gateway) (text : String) (f : JsFile) (mode : ChatMode)
    (h : allowsAttachment mode = false) :
    (handleSendMessage (fun _ => Except.ok b64) createObjectURL gateway mode
        text (some f)).messages
      = [{ sender := Sender.user, text := text, imageUrl := some (createObjectURL f) },
         { sender := Sender.ai, text := advisoryText mode }] ∧
    (handleSendMessage (fun _ => Except.ok b64) createObjectURL gateway mode
        text (some f)).gatewayCalls = [] := by
  cases mode with
  | Standard => simp [allowsAttachment] at h
  | SearchGrounded =>
    exact ⟨rfl, rfl⟩
  | FastResponse =>
    exact ⟨rfl, rfl⟩

/-- C1 witness: the amended theorem applied at a concrete Search Grounded
submission with a decodable image attachment. -/
theorem c1_policy_advisory_witness :
    (handleSendMessage (fun _ => Except.ok "QUJD") (fun _ => "blob:1")
        (fun _ => Except.error "unreached") ChatMode.SearchGrounded "hi"
        (some { type := "image/png" })).messages
      = [{ sender := Sender.user, text := "hi", imageUrl := some "blob:1" },
         { sender := Sender.ai, text := advisoryText ChatMode.SearchGrounded }] ∧
    (handleSendMessage (fun _ => Except.ok "QUJD") (fun _ => "blob:1")
        (fun _ => Except.error "unreached") ChatMode.SearchGrounded "hi"
        (some { type := "image/png" })).gatewayCalls = [] :=
  c1_policy_advisory "QUJD" (fun _ => "blob:1") (fun _ => Except.error "unreached")
    "hi" { type := "image/png" } ChatMode.SearchGrounded rfl

/-- C3 counterexample: the policy-violation advisory branch releases the
attachment preview resource twice, not exactly once — the branch itself
revokes the object URL and the `finally` block revokes it again on the
`return`.  The appended user turn carries the preview reference, witnessing
that the resource was created for this turn. -/
theorem c3_release_counterexample :
    (handleSendMessage (fun _ => Except.ok "QUJD") (fun _ => "blob:1")
        (fun _ => Except.error "unreached") ChatMode.SearchGrounded "hi"
        (some { type := "image/png" })).revokeCount = 2 ∧
    ¬ (handleSendMessage (fun _ => Except.ok "QUJD") (fun _ => "blob:1")
        (fun _ => Except.error "unreached") ChatMode.SearchGrounded "hi"
        (some { type := "image/png" })).revokeCount = 1 ∧
    ((handleSendMessage (fun _ => Except.ok "QUJD") (fun _ => "blob:1")
        (fun _ => Except.error "unreached") ChatMode.SearchGrounded "hi"
        (some { type := "image/png" })).messages.map Message.imageUrl).head?
      = some (some "blob:1") := by
  decide

/-- C3 (amended): for every submitted turn that creates an attachment preview
resource (attachment present and decoded), the resource is released at least
once on every exit path — exactly once on the Standard-mode paths (success or
gateway failure) and twice on the policy-violation advisory branch. -/
theorem c3_release_counts (b64 : String) (createObjectURL : JsFile → String)
    (gateway : Gateway) (text : String) (f : JsFile) (mode : ChatMode) :
    (handleSendMessage (fun _ => Except.ok b64) createObjectURL gateway mode
        text (some f)).revokeCount
      = (if allowsAttachment mode then 1 else 2) := by
  cases mode with
  | Standard =>
    show (finishCall gateway _ _ _).revokeCount = _
    cases h : gateway (.standard text (some { data := b64, mimeType := f.type })) <;>
      simp [finishCall, h, allowsAttachment]
  | SearchGrounded => rfl
  | FastResponse => rfl

/-- The catch block's diagnostic and reselection count, phrased with the two
components separated. -/
theorem deriveFailure_spec (e : String) :
    (deriveFailure e).1
      = (if strIncludes e credentialSignature then credentialMessage
         else if e != "" then "AI Error: " ++ e
         else defaultGatewayErrorMessage) ∧
    (deriveFailure e).2 = (if strIncludes e credentialSignature then 1 else 0) := by
  constructor <;> simp only [deriveFailure] <;> split_ifs <;> simp_all

/-- Every gateway-calling path records exactly its one capability call. -/
theorem finishCall_gatewayCalls (gateway : Gateway) (call : GatewayCall)
    (u : Message) (p : Option String) :
    (finishCall gateway call u p).gatewayCalls = [call] := by
  unfold finishCall
  cases gateway call <;> rfl

/-- C2: for every turn whose gateway call fails, the orchestrator appends the
user turn followed by exactly one AI turn; when the failure message contains
the credential signature the AI turn carries the credential-issue message and
the credential-reselection collaborator is invoked exactly once, and for any
other failure the AI turn carries the diagnostic derived from the message and
the collaborator is not invoked.  Stated over an arbitrary failing gateway
at the adapter boundary (§4.4: failure is an opaque error carrying a message
string), in every mode. -/
theorem c2_gateway_failure_dispatch (decode : JsFile → Except String String)
    (createObjectURL : JsFile → String) (e : String) (mode : ChatMode)
    (text : String) :
    (handleSendMessage decode createObjectURL (fun _ => Except.error e) mode
        text none).messages
      = [{ sender := Sender.user, text := text },
         { sender := Sender.ai,
           text := if strIncludes e credentialSignature then credentialMessage
                   else if e != "" then "AI Error: " ++ e
                   else defaultGatewayErrorMessage }] ∧
    (handleSendMessage decode createObjectURL (fun _ => Except.error e) mode
        text none).openSelectKeyCount
      = (if strIncludes e credentialSignature then 1 else 0) ∧
    (handleSendMessage decode createObjectURL (fun _ => Except.error e) mode
        text none).gatewayCalls.length = 1 := by
  cases mode <;>
    simp only [handleSendMessage, mainFlow, finishCall] <;>
    exact ⟨by rw [(deriveFailure_spec e).1], by rw [(deriveFailure_spec e).2], rfl⟩

/-- C4: each conversation mode dispatches to exactly one gateway capability
(at most one call per turn, and every call a turn issues addresses the
capability of its mode), and at the SDK layer the Standard entry point is the
only one that carries an encoded attachment — the search-grounded and fast
entry points construct prompt-only calls against their fixed models, while
the Standard entry point constructs a parts call that carries the inline
attachment exactly when file data is present. -/
theorem c4_capability_dispatch :
    (∀ (decode : JsFile → Except String String)
        (createObjectURL : JsFile → String) (gateway : Gateway)
        (mode : ChatMode) (text : String) (file : Option JsFile),
      (handleSendMessage decode createObjectURL gateway mode text
          file).gatewayCalls.all
          (fun call => capabilityOf call == modeCapability mode) = true ∧
      (handleSendMessage decode createObjectURL gateway mode text
          file).gatewayCalls.length ≤ 1) ∧
    (∀ (sdk : SdkOracle) (p : String),
      (generateContentSearchGrounded sdk p).2
        = { model := "gemini-3-flash-preview", contents := .prompt p,
            config := { googleSearch := true } }) ∧
    (∀ (sdk : SdkOracle) (p : String),
      (generateContentFast sdk p).2
        = { model := "gemini-flash-lite-latest", contents := .prompt p,
            config := { thinkingBudgetZero := true } }) ∧
    (∀ (sdk : SdkOracle) (p : String) (fd : Option FileData),
      (generateContentStandard sdk p fd).2
        = { model := "gemini-3-pro-preview",
            contents := .parts (Part.text p :: attachmentParts fd) }) := by
  refine ⟨?_, fun sdk p => rfl, fun sdk p => rfl, ?_⟩
  · intro decode createObjectURL gateway mode text file
    cases file with
    | none =>
      cases mode <;>
        simp only [handleSendMessage, mainFlow,
          finishCall_gatewayCalls] <;>
        exact ⟨rfl, Nat.le_refl 1⟩
    | some f =>
      cases hd : decode f with
      | error e => simp [handleSendMessage, hd]
      | ok b64 =>
        cases mode <;>
          simp only [handleSendMessage, hd, mainFlow, advisoryOutcome,
            finishCall_gatewayCalls] <;>
          exact ⟨rfl, by simp⟩
  · intro sdk p fd
    cases fd <;> rfl

/-- C5: for every submission whose attachment fails to decode,
`handleSendMessage` appends exactly the AI-authored decode-error turn, issues
no gateway call, performs no release or reselection, and ends with the flight
flag cleared. -/
theorem c5_decode_failure_aborts (err : String)
    (createObjectURL : JsFile → String) (gateway : Gateway) (mode : ChatMode)
    (text : String) (f : JsFile) :
    handleSendMessage (fun _ => Except.error err) createObjectURL gateway mode
        text (some f)
      = { messages := [{ sender := Sender.ai, text := fileErrorMessage }],
          gatewayCalls := [], revokeCount := 0, openSelectKeyCount := 0,
          isLoadingFinal := false } :=
  rfl

/-- C9: on attachment decode failure the log gains exactly one turn, that
turn is AI-authored, carries no image reference, and its text is the fixed
decode-error message — in particular no user turn recording the submitted
text or attachment is appended. -/
theorem c9_decode_failure_no_user_turn (err : String)
    (createObjectURL : JsFile → String) (gateway : Gateway) (mode : ChatMode)
    (text : String) (f : JsFile) :
    (handleSendMessage (fun _ => Except.error err) createObjectURL gateway mode
        text (some f)).messages.map Message.sender = [Sender.ai] ∧
    (handleSendMessage (fun _ => Except.error err) createObjectURL gateway mode
        text (some f)).messages.map Message.imageUrl = [none] ∧
    (handleSendMessage (fun _ => Except.error err) createObjectURL gateway mode
        text (some f)).messages.map Message.text = [fileErrorMessage] :=
  ⟨rfl, rfl, rfl⟩

/-- C6: for every submission attempt where the draft text is empty or
whitespace-only and no attachment is selected, the attempt is a no-op: the
session state (message log included) is unchanged and no gateway call, no
release and no reselection occurs. -/
theorem c6_empty_submission_noop (decode : JsFile → Except String String)
    (createObjectURL : JsFile → String) (gateway : Gateway) (mode : ChatMode)
    (s : AppState) (h1 : jsTrim s.input.inputText = "")
    (h2 : s.input.selectedFile = none) :
    submitEvent decode createObjectURL gateway mode s = (s, {}) := by
  obtain ⟨msgs, load, inp⟩ := s
  simp only at h1 h2
  cases load <;> simp [submitEvent, handleSubmit, h1, h2]

/-- C6 witness: a whitespace-only draft with no attachment, submitted while
idle, leaves the session untouched. -/
theorem c6_empty_submission_noop_witness :
    submitEvent (fun _ => Except.error "e") (fun _ => "u")
        (fun _ => Except.error "g") ChatMode.Standard
        { messages := [], isLoading := false,
          input := { inputText := "  ", selectedFile := none,
                     filePreviewUrl := none } }
      = ({ messages := [], isLoading := false,
           input := { inputText := "  ", selectedFile := none,
                      filePreviewUrl := none } }, {}) :=
  c6_empty_submission_noop (fun _ => Except.error "e") (fun _ => "u")
    (fun _ => Except.error "g") ChatMode.Standard
    { messages := [], isLoading := false,
      input := { inputText := "  ", selectedFile := none,
                 filePreviewUrl := none } }
    (by decide) rfl

/-- One flight step preserves the flight invariant. -/
theorem flightStep_inv (s : FlightState) (e : FlightEvent)
    (h : flightInv s) : flightInv (flightStep s e) := by
  unfold flightInv at h ⊢
  obtain ⟨h1, h2⟩ := h
  cases e with
  | attempt hasContent =>
    cases hl : s.loading with
    | true => simp_all [flightStep]
    | false =>
      have h0 : s.pending = 0 := h2 hl
      cases hasContent <;> simp_all [flightStep]
  | resolve =>
    simp only [flightStep]
    exact ⟨by omega, fun _ => by omega⟩

/-- Running a flight trace preserves the flight invariant. -/
theorem runFlight_inv (es : List FlightEvent) (s : FlightState)
    (h : flightInv s) : flightInv (runFlight s es) := by
  induction es generalizing s with
  | nil => exact h
  | cons e es ih => exact ih _ (flightStep_inv s e h)

/-- C7: a submission attempt made while the flight flag is set is silently
dropped — the session state is unchanged and no gateway call, release, or
reselection occurs — and along every flight trace from the idle session at
most one turn is ever pending, so the flag is never set for two overlapping
turns. -/
theorem c7_single_flight :
    (∀ (decode : JsFile → Except String String)
        (createObjectURL : JsFile → String) (gateway : Gateway)
        (mode : ChatMode) (s : AppState),
      submitEvent decode createObjectURL gateway mode
          { s with isLoading := true }
        = ({ s with isLoading := true }, {})) ∧
    (∀ es : List FlightEvent, (runFlight flightInit es).pending ≤ 1) :=
  ⟨fun _ _ _ _ _ => rfl,
   fun es => (runFlight_inv es flightInit (by simp [flightInv, flightInit])).1⟩

/-- C8 counterexample: with the title absent and a URI longer than 50
characters the rendered anchor text is the host with an ellipsis appended,
not the URI's host; and a present-but-empty title also falls back to the
host instead of being displayed. -/
theorem c8_display_title_counterexample :
    sourceDisplayText urlHostname
        { uri := "https://example.com/aaaaaaaaaaaaaaaaaaaaaaaaaaaaaaa",
          title := none }
      ≠ urlHostname "https://example.com/aaaaaaaaaaaaaaaaaaaaaaaaaaaaaaa" ∧
    sourceDisplayText urlHostname
        { uri := "https://example.com/aaaaaaaaaaaaaaaaaaaaaaaaaaaaaaa",
          title := none }
      = "example.com..." ∧
    sourceDisplayText urlHostname
        { uri := "https://example.com/", title := some "" }
      = "example.com" := by
  decide

/-- C8 (amended): the rendered anchor text is the source's title when present
and nonempty; when the title is absent or empty it falls back to the URI's
host, with an ellipsis appended when the URI is longer than 50 characters.
Stated for an arbitrary host function. -/
theorem c8_display_title (hostname : String → String) (s : ToolSource)
    (t : String) :
    (s.title = some t → t ≠ "" → sourceDisplayText hostname s = t) ∧
    (s.title = some "" → sourceDisplayText hostname s
      = hostname s.uri ++ (if s.uri.length > 50 then "..." else "")) ∧
    (s.title = none → sourceDisplayText hostname s
      = hostname s.uri ++ (if s.uri.length > 50 then "..." else "")) := by
  refine ⟨fun h1 h2 => ?_, fun h1 => ?_, fun h1 => ?_⟩ <;>
    simp [sourceDisplayText, h1]
  intro h
  exact absurd h h2

/-- C8 witness: the amended theorem at a concrete titled source and a
concrete untitled short-URI source. -/
theorem c8_display_title_witness :
    sourceDisplayText urlHostname
        { uri := "https://example.com/", title := some "Example" } = "Example" ∧
    sourceDisplayText urlHostname
        { uri := "https://example.com/", title := none }
      = urlHostname "https://example.com/" ++
          (if ("https://example.com/" : String).length > 50 then "..." else "") :=
  ⟨(c8_display_title urlHostname
      { uri := "https://example.com/", title := some "Example" } "Example").1
      rfl (by decide),
   (c8_display_title urlHostname
      { uri := "https://example.com/", title := none } "Example").2.2 rfl⟩

/-- One input step preserves the image-only selection invariant. -/
theorem stepInput_fileOk (createObjectURL : JsFile → String) (st : InputState)
    (e : InputEvent) (h : fileOk st.selectedFile = true) :
    fileOk (stepInput createObjectURL st e).selectedFile = true := by
  cases e with
  | textChange t => simpa [stepInput] using h
  | fileChange f =>
    cases f with
    | none => simp [stepInput, handleFileChange, fileOk]
    | some g =>
      by_cases hg : jsStartsWith g.type "image/" = true <;>
        simp_all [stepInput, handleFileChange, fileOk]
  | clear => simp [stepInput, clearFile, fileOk]
  | submit l =>
    simp only [stepInput, handleSubmit]
    split
    · exact h
    · split
      · simp [clearFile, fileOk]
      · exact h

/-- Running input events preserves the image-only selection invariant. -/
theorem runInput_fileOk (createObjectURL : JsFile → String)
    (es : List InputEvent) (st : InputState)
    (h : fileOk st.selectedFile = true) :
    fileOk (runInput createObjectURL st es).selectedFile = true := by
  induction es generalizing st with
  | nil => exact h
  | cons e es ih => exact ih _ (stepInput_fileOk createObjectURL st e h)

/-- A submission emits the currently selected file, if it emits at all. -/
theorem handleSubmit_emits_selected (st : InputState) (l : Bool) (t : String)
    (fo : Option JsFile) (h : (handleSubmit st l).2 = some (t, fo)) :
    fo = st.selectedFile := by
  simp only [handleSubmit] at h
  split at h
  · exact absurd h (by simp)
  · split at h
    · simp at h
      exact h.2.symm
    · exact absurd h (by simp)

/-- C10: choosing a non-image file clears the selected attachment (with the
user-facing alert) rather than storing it; consequently, from the initial
state the selected-attachment state is always either empty or an image MIME
type, and every file a submission hands to the turn orchestrator is an
image. -/
theorem c10_image_only_invariant :
    (∀ (createObjectURL : JsFile → String) (st : InputState) (f : JsFile),
      jsStartsWith f.type "image/" = false →
      handleFileChange createObjectURL st (some f)
        = ({ st with selectedFile := none, filePreviewUrl := none }, true)) ∧
    (∀ (createObjectURL : JsFile → String) (es : List InputEvent),
      fileOk (runInput createObjectURL initInputState es).selectedFile = true) ∧
    (∀ (createObjectURL : JsFile → String) (es : List InputEvent)
        (isLoading : Bool) (t : String) (f : JsFile),
      (handleSubmit (runInput createObjectURL initInputState es) isLoading).2
          = some (t, some f) →
      jsStartsWith f.type "image/" = true) := by
  refine ⟨fun createObjectURL st f h => ?_, fun createObjectURL es => ?_,
    fun createObjectURL es isLoading t f h => ?_⟩
  · simp [handleFileChange, h]
  · exact runInput_fileOk createObjectURL es initInputState rfl
  · have hsel := handleSubmit_emits_selected _ _ _ _ h
    have hok := runInput_fileOk createObjectURL es initInputState rfl
    rw [← hsel] at hok
    simpa [fileOk] using hok

/-- C10 witness: a PDF choice is cleared with an alert, and after that event
the invariant holds. -/
theorem c10_image_only_invariant_witness :
    handleFileChange (fun _ => "blob:1") initInputState
        (some { type := "application/pdf" })
      = ({ initInputState with selectedFile := none, filePreviewUrl := none },
         true) ∧
    fileOk (runInput (fun _ => "blob:1") initInputState
        [InputEvent.fileChange (some { type := "application/pdf" })]).selectedFile
      = true :=
  ⟨c10_image_only_invariant.1 (fun _ => "blob:1") initInputState
      { type := "application/pdf" } (by decide),
   c10_image_only_invariant.2.1 (fun _ => "blob:1")
      [InputEvent.fileChange (some { type := "application/pdf" })]⟩

end Chatbot
